import Mathlib

/-!
Verification of the SE-ICB-Population Streamlit app (src/streamlit_app.py).

The script loads a multi-sheet Excel workbook into a dictionary of data
frames (`load_data`, lines 35-56), lets the user pick an area and a view
mode, computes the list of columns to plot (lines 92-101), builds the
plotted frame `plot_df` (line 104), and renders a Plotly line chart with a
fixed colour map, line width 3, a clamped x-axis range and an optional
zero baseline (lines 106-147).

The embedding below models cells, sheets and workbooks; pure functions of
the script become Lean functions with the source's names where possible,
and the top-level script flow (try/except around `load_data`, the empty
`data_dict` check, selection and rendering) becomes `runApp`.
-/

namespace SEICB

/-- A spreadsheet cell as pandas sees it: an integer, a string, or a
blank/NaN cell. -/
inductive Cell where
  | int (n : Int)
  | str (s : String)
  | blank
deriving DecidableEq, Repr

def Cell.isBlank : Cell → Bool
  | .blank => true
  | _ => false

/-- Python comparison of two non-NaN cell values as pandas `min`/`max`
use it on an object column: ints compare with ints, strings with strings
(lexicographically); comparing an int against a string raises TypeError,
modelled as `none`. NaN cells never reach the comparison, since pandas
drops them first (skipna). -/
def Cell.leb : Cell → Cell → Option Bool
  | .int a, .int b => some (decide (a ≤ b))
  | .str a, .str b => some (decide (a ≤ b))
  | _, _ => none

/-- Fold the running minimum over a column, propagating a comparison
TypeError as `none`. -/
def cellMinFold : Cell → List Cell → Option Cell
  | a, [] => some a
  | a, b :: rest =>
    match Cell.leb a b with
    | none => none
    | some true => cellMinFold a rest
    | some false => cellMinFold b rest

/-- Fold the running maximum over a column, propagating a comparison
TypeError as `none`. -/
def cellMaxFold : Cell → List Cell → Option Cell
  | a, [] => some a
  | a, b :: rest =>
    match Cell.leb b a with
    | none => none
    | some true => cellMaxFold a rest
    | some false => cellMaxFold b rest

/-- pandas `Series.min`: drop NaN, then fold the comparison. `none` models
the TypeError raised on a column mixing ints and strings; an empty (or
all-NaN) column gives NaN, as pandas does. -/
def cellMin (l : List Cell) : Option Cell :=
  match l.filter (fun c => !c.isBlank) with
  | [] => some .blank
  | x :: xs => cellMinFold x xs

/-- pandas `Series.max`: drop NaN, then fold the comparison. `none` models
the TypeError raised on a column mixing ints and strings; an empty (or
all-NaN) column gives NaN, as pandas does. -/
def cellMax (l : List Cell) : Option Cell :=
  match l.filter (fun c => !c.isBlank) with
  | [] => some .blank
  | x :: xs => cellMaxFold x xs

/-- One worksheet read by `pd.read_excel`: named columns and a list of rows
of cells. -/
structure Sheet where
  columns : List String
  rows : List (List Cell)
deriving DecidableEq, Repr

/-- pandas `DataFrame.empty`: true when either axis has length zero. -/
def Sheet.empty (df : Sheet) : Bool :=
  df.rows.isEmpty || df.columns.isEmpty

/-- Extract one column by name, as `df[name]` does: the cells at the index
of the first column with that name (blank when a row is too short, as
pandas pads short rows with NaN). Empty when the column is absent. -/
def Sheet.getColumn (df : Sheet) (name : String) : List Cell :=
  match df.columns.findIdx? (fun c => c == name) with
  | none => []
  | some i => df.rows.map (fun r => r.getD i Cell.blank)

/-- Model of `df[cols]`: a sub-frame with exactly the requested columns in the
requested order. `none` models the `KeyError` pandas raises when a
requested column is missing. -/
def Sheet.selectColumns (df : Sheet) (cols : List String) : Option Sheet :=
  if cols.all (fun c => df.columns.contains c) then
    some { columns := cols,
           rows := df.rows.map (fun r =>
             cols.map (fun c =>
               match df.columns.findIdx? (fun c2 => c2 == c) with
               | some i => r.getD i Cell.blank
               | none => Cell.blank)) }
  else
    none

/-- The contents behind a file path: either unreadable/not a workbook
(`pd.ExcelFile` raises), or a workbook, i.e. the sheets in workbook order. -/
inductive FileContent where
  | unreadable (msg : String)
  | workbook (sheets : List (String × Sheet))
deriving Repr

/-- The sheet filter of `load_data` (line 54): keep a sheet when it is
non-empty and has a column named "Year". -/
def sheetValid (df : Sheet) : Bool :=
  !df.empty && df.columns.contains "Year"

/-- The function `load_data` (lines 35-56): open the workbook (`pd.ExcelFile`, which
raises on an unreadable or invalid file — modelled as `Except.error`),
then keep every sheet passing `sheetValid`, in workbook sheet order
(Python dicts preserve insertion order). -/
def load_data : FileContent → Except String (List (String × Sheet))
  | .unreadable msg => .error msg
  | .workbook sheets => .ok (sheets.filter (fun s => sheetValid s.2))

/-- Python `str.endswith`: does `s` end with `suffix`? Modelled over the
string's character list. -/
def strEndsWith (s suffix : String) : Bool :=
  suffix.data.isSuffixOf s.data

/-- The fixed ordered list of count columns (line 98). -/
def countOrder : List String := ["0-24", "25-64", "65-79", "80+", "All ages"]

/-- The selection `plot_columns` (lines 92-98): for "Percent change", the sheet's columns
ending in "_pct" in sheet order; otherwise the fixed count list filtered to
the columns present. -/
def plot_columns (view_type : String) (df : Sheet) : List String :=
  if view_type == "Percent change" then
    df.columns.filter (fun col => strEndsWith col "_pct")
  else
    countOrder.filter (fun col => df.columns.contains col)

/-- The label `y_label` (lines 94 and 99). -/
def y_label (view_type : String) : String :=
  if view_type == "Percent change" then "Percent change (%)" else "Population (persons)"

/-- The suffix `title_suffix` (lines 95 and 100). -/
def title_suffix (view_type : String) : String :=
  if view_type == "Percent change" then " – Percent Change" else " – Population Counts"

/-- The flag `zero_line` (lines 96 and 101). -/
def zero_line (view_type : String) : Bool :=
  view_type == "Percent change"

/-- The dictionary `color_map` (lines 113-124), in source order. -/
def color_map : List (String × String) :=
  [("0-24", "#F5B041"),
   ("25-64", "#5DADE2"),
   ("65-79", "#58D68D"),
   ("80+", "#E74C3C"),
   ("All ages", "#34495E"),
   ("0-24_pct", "#F5B041"),
   ("25-64_pct", "#5DADE2"),
   ("65-79_pct", "#58D68D"),
   ("80+_pct", "#E74C3C"),
   ("All ages_pct", "#34495E")]

/-- The colour Plotly assigns to a trace name under `color_discrete_map`. -/
def colorFor (series : String) : Option String :=
  (color_map.find? (fun p => p.1 == series)).map Prod.snd

/-- The chart produced by lines 127-144: the Plotly figure after
`px.line`, `update_traces(line width 3)`, `update_xaxes(range=...)` and the
conditional `add_hline(y=0)`. -/
structure ChartSpec where
  xField : String
  series : List String
  title : String
  lineWidth : Nat
  xRange : Option Cell × Option Cell
  hasZeroLine : Bool
  colors : List (String × String)
deriving DecidableEq, Repr

/-- Lines 104-144: build `plot_df = selected_df[['Year'] + plot_columns]`
(`none` when that selection would raise), then the chart: one series per
plot column, title `area ++ title_suffix`, line width 3, x-axis range
clamped to `[plot_df['Year'].min(), plot_df['Year'].max()]` — `none` when
either of those raises TypeError at line 140, in which case the script
crashes and shows no chart — and a zero baseline exactly when `zero_line`
is set. -/
def render (selected_area : String) (view_type : String) (selected_df : Sheet) :
    Option ChartSpec :=
  let cols := plot_columns view_type selected_df
  match selected_df.selectColumns ("Year" :: cols) with
  | none => none
  | some plot_df =>
    match cellMin (plot_df.getColumn "Year"), cellMax (plot_df.getColumn "Year") with
    | some lo, some hi =>
      some { xField := "Year",
             series := cols,
             title := selected_area ++ title_suffix view_type,
             lineWidth := 3,
             xRange := (some lo, some hi),
             hasZeroLine := zero_line view_type,
             colors := color_map }
    | _, _ => none

/-- Outcome of one run of the script body (lines 69-147): the `st.error` +
`st.stop` path for a load failure, the one for an empty `data_dict`, a
rendered chart, or an uncaught exception. -/
inductive AppOutcome where
  | loadError (msg : String)
  | emptyData
  | chart (c : ChartSpec)
  | crash
deriving DecidableEq, Repr

/-- The script body (lines 69-147): `load_data` inside try/except (a raise
becomes `loadError`), the `if not data_dict` check (`emptyData`), then the
area selectbox (defaulting to the first key, and only keys are choosable),
lookup of the selected frame, and rendering. -/
def runApp (file : FileContent) (areaChoice : Option String) (view_type : String) :
    AppOutcome :=
  match load_data file with
  | .error msg => .loadError msg
  | .ok data_dict =>
    if data_dict.isEmpty then .emptyData
    else
      let area_names := data_dict.map Prod.fst
      let selected_area :=
        match areaChoice with
        | some a => if area_names.contains a then a else area_names.headD ""
        | none => area_names.headD ""
      match data_dict.find? (fun p => p.1 == selected_area) with
      | none => .crash
      | some entry =>
        match render selected_area view_type entry.2 with
        | none => .crash
        | some c => .chart c

/-! Concrete sample data used by witness theorems. -/

/-- A small valid sheet: Year, one count column and its percent variant. -/
def sampleSheet : Sheet :=
  { columns := ["Year", "0-24", "0-24_pct"],
    rows := [[.int 2025, .int 10, .int 0], [.int 2030, .int 12, .int 20]] }

/-- A sheet with a Year column but none of the count or percent columns. -/
def sampleYearOnly : Sheet :=
  { columns := ["Year"], rows := [[.int 2025], [.int 2030]] }

/-- The chart `render` produces from `sampleSheet` in "Percent change"
mode. -/
def samplePercentChart : ChartSpec :=
  { xField := "Year",
    series := ["0-24_pct"],
    title := "Bromley – Percent Change",
    lineWidth := 3,
    xRange := (some (.int 2025), some (.int 2030)),
    hasZeroLine := true,
    colors := color_map }

/-- The sub-frame `plot_df` that line 104 builds from `sampleSheet` in
"Percent change" mode. -/
def samplePlotDf : Sheet :=
  { columns := ["Year", "0-24_pct"],
    rows := [[.int 2025, .int 0], [.int 2030, .int 20]] }

/-- A non-empty sheet with no "Year" column. -/
def sheetNoYear : Sheet :=
  { columns := ["Area", "Population"], rows := [[.str "x", .int 5]] }

/-- A non-empty sheet whose "Year" column holds strings, not integers. -/
def sheetStrYears : Sheet :=
  { columns := ["Year", "0-24"], rows := [[.str "twenty twenty-five", .str "ten"]] }

/-- Every plot column is one of the selected sheet's columns, in either
view mode (lines 93 and 98 both filter by presence in the sheet). -/
theorem plot_columns_subset (view_type : String) (df : Sheet) :
    ∀ c ∈ plot_columns view_type df, c ∈ df.columns := by
  intro c hc
  unfold plot_columns at hc
  split at hc
  · exact (List.mem_filter.mp hc).1
  · exact List.elem_iff.mp (List.mem_filter.mp hc).2

/-- C1: a sheet appears in the mapping returned by `load_data` iff it is
non-empty and has a "Year" column; all other sheets are absent, and the
entries keep workbook sheet order (the result is a sublist of the
workbook's sheet list). -/
theorem c1_load_data_membership_and_order (wb : List (String × Sheet)) :
    ∃ out, load_data (.workbook wb) = .ok out ∧
      (∀ e : String × Sheet,
        e ∈ out ↔ e ∈ wb ∧ e.2.empty = false ∧ "Year" ∈ e.2.columns) ∧
      out.Sublist wb := by
  refine ⟨_, rfl, ?_, List.filter_sublist wb⟩
  intro e
  rw [List.mem_filter]
  constructor
  · rintro ⟨hmem, hv⟩
    rcases Bool.and_eq_true_iff.mp hv with ⟨hne, hy⟩
    exact ⟨hmem, Bool.not_eq_true' .. |>.mp hne, List.elem_iff.mp hy⟩
  · rintro ⟨hmem, hne, hy⟩
    refine ⟨hmem, Bool.and_eq_true_iff.mpr ⟨?_, List.elem_iff.mpr hy⟩⟩
    simp [hne]

/-- C2 counterexample: for an unreadable file `load_data` propagates the
underlying error (line 49, `pd.ExcelFile` raises before the sheet loop) —
it does not return the empty mapping. -/
theorem c2_load_data_unreadable_counterexample :
    load_data (.unreadable "missing.xlsx") = .error "missing.xlsx" ∧
      load_data (.unreadable "missing.xlsx") ≠ .ok [] := by
  refine ⟨rfl, ?_⟩
  intro h
  exact Except.noConfusion h

/-- C2 amended: for every unreadable or invalid file, `load_data` raises
the underlying exception to its caller; the caller's try/except (lines
69-73) catches it and shows a load error, halting with no chart. The
empty mapping arises only from a readable workbook with no qualifying
sheet. -/
theorem c2_load_data_unreadable_raises (msg : String) (areaChoice : Option String)
    (view_type : String) :
    load_data (.unreadable msg) = .error msg ∧
      runApp (.unreadable msg) areaChoice view_type = .loadError msg :=
  ⟨rfl, rfl⟩

/-- C3: in "Percent change" mode the plot columns are exactly the sheet's
columns whose name ends with "_pct", in the sheet's own column order. -/
theorem c3_percent_change_plot_columns (df : Sheet) :
    (∀ c, c ∈ plot_columns "Percent change" df ↔
        c ∈ df.columns ∧ strEndsWith c "_pct" = true) ∧
      (plot_columns "Percent change" df).Sublist df.columns := by
  constructor
  · intro c
    simp [plot_columns, List.mem_filter]
  · simp [plot_columns]

/-- C4: in "Counts" mode the plot columns are the fixed list
`["0-24", "25-64", "65-79", "80+", "All ages"]` restricted to columns
present in the sheet, in that fixed order; permuting the sheet's physical
column order does not change the result. -/
theorem c4_counts_plot_columns (df df2 : Sheet)
    (hperm : df.columns.Perm df2.columns) :
    (∀ c, c ∈ plot_columns "Counts" df ↔ c ∈ countOrder ∧ c ∈ df.columns) ∧
      (plot_columns "Counts" df).Sublist countOrder ∧
      plot_columns "Counts" df2 = plot_columns "Counts" df := by
  refine ⟨?_, ?_, ?_⟩
  · intro c
    simp [plot_columns, List.mem_filter, List.elem_iff]
  · simp [plot_columns]
  · unfold plot_columns
    simp only [show (("Counts" == "Percent change") = false) from rfl, Bool.false_eq_true,
      if_false]
    refine List.filter_congr ?_
    intro c _
    have hci : c ∈ df2.columns ↔ c ∈ df.columns := (hperm.mem_iff).symm
    rw [Bool.eq_iff_iff, List.elem_iff, List.elem_iff]
    exact hci

/-- C4 witness: two concrete sheets with the same columns in different
physical order give the same Counts plot columns, in the fixed order. -/
theorem c4_counts_plot_columns_witness :
    sampleSheet.columns.Perm (Sheet.mk ["0-24_pct", "0-24", "Year"] []).columns ∧
      ((∀ c, c ∈ plot_columns "Counts" sampleSheet ↔
          c ∈ countOrder ∧ c ∈ sampleSheet.columns) ∧
        (plot_columns "Counts" sampleSheet).Sublist countOrder ∧
        plot_columns "Counts" (Sheet.mk ["0-24_pct", "0-24", "Year"] []) =
          plot_columns "Counts" sampleSheet) :=
  ⟨by decide,
   c4_counts_plot_columns sampleSheet (Sheet.mk ["0-24_pct", "0-24", "Year"] []) (by decide)⟩

/-- When every requested column is present, `selectColumns` succeeds and
returns the sub-frame built by looking each requested column up in the
source sheet. -/
theorem selectColumns_some_of_subset (df : Sheet) (cols : List String)
    (hall : ∀ c ∈ cols, c ∈ df.columns) :
    df.selectColumns cols =
      some { columns := cols,
             rows := df.rows.map (fun r => cols.map (fun c =>
               match df.columns.findIdx? (fun c2 => c2 == c) with
               | some i => r.getD i Cell.blank
               | none => Cell.blank)) } := by
  have hb : (cols.all fun c => df.columns.contains c) = true := by
    rw [List.all_eq_true]
    intro c hc
    exact List.elem_iff.mpr (hall c hc)
  simp only [Sheet.selectColumns, hb]
  rfl

/-- Selecting `"Year" :: cols` from a sheet that has a "Year" column keeps
the "Year" column's cells unchanged. -/
theorem getColumn_year_select (df : Sheet) (cols : List String) (pdf : Sheet)
    (hy : "Year" ∈ df.columns)
    (hp : df.selectColumns ("Year" :: cols) = some pdf) :
    pdf.getColumn "Year" = df.getColumn "Year" := by
  obtain ⟨i, hi⟩ : ∃ i, df.columns.findIdx? (fun c2 => c2 == "Year") = some i := by
    cases hfi : df.columns.findIdx? (fun c2 => c2 == "Year") with
    | some i => exact ⟨i, rfl⟩
    | none =>
      exfalso
      have := List.findIdx?_eq_none_iff.mp hfi "Year" hy
      simp at this
  unfold Sheet.selectColumns at hp
  split at hp
  · rw [Option.some.injEq] at hp
    subst hp
    simp [Sheet.getColumn, List.findIdx?_cons, hi, List.map_map, Function.comp_def]
  · exact Option.noConfusion hp

/-- C5: the rendered chart carries the dashed zero baseline exactly when
the view mode is "Percent change" (lines 96, 101, 143-144). -/
theorem c5_zero_baseline_iff_percent_change (area view_type : String) (df : Sheet)
    (c : ChartSpec) (hc : render area view_type df = some c) :
    c.hasZeroLine = true ↔ view_type = "Percent change" := by
  simp only [render] at hc
  split at hc
  · exact Option.noConfusion hc
  · split at hc
    · rw [Option.some.injEq] at hc
      subst hc
      simp [zero_line]
    · exact Option.noConfusion hc

/-- C5 witness: on a concrete sheet, the percent-change chart exists and
its baseline flag matches the mode. -/
theorem c5_zero_baseline_witness :
    render "Bromley" "Percent change" sampleSheet = some samplePercentChart ∧
      (samplePercentChart.hasZeroLine = true ↔ "Percent change" = "Percent change") :=
  ⟨rfl,
   c5_zero_baseline_iff_percent_change "Bromley" "Percent change" sampleSheet
     samplePercentChart rfl⟩

/-- C6: each count series shares its colour with its "_pct" variant, i.e.
looking a percent column up in `color_map` gives the colour of the base
series obtained by stripping the suffix, and every count series has a
colour. -/
theorem c6_color_identity (s : String) (h : s ∈ countOrder) :
    colorFor (s ++ "_pct") = colorFor s ∧ (colorFor s).isSome = true := by
  fin_cases h <;> exact ⟨by decide, by decide⟩

/-- C6 witness: the "0-24" series and "0-24_pct" share their colour. -/
theorem c6_color_identity_witness :
    "0-24" ∈ countOrder ∧
      (colorFor ("0-24" ++ "_pct") = colorFor "0-24" ∧ (colorFor "0-24").isSome = true) :=
  ⟨by decide, c6_color_identity "0-24" (by decide)⟩

/-- C7: the rendered chart's x-axis range is exactly `[min, max]` of the
Year column of the plotted (column-filtered) table, with no padding; and
that Year column is the selected sheet's own Year column unchanged. -/
theorem c7_xaxis_range_clamped (area view_type : String) (df : Sheet)
    (c : ChartSpec) (pdf : Sheet) (hy : "Year" ∈ df.columns)
    (hc : render area view_type df = some c)
    (hp : df.selectColumns ("Year" :: plot_columns view_type df) = some pdf) :
    c.xRange = (cellMin (pdf.getColumn "Year"), cellMax (pdf.getColumn "Year")) ∧
      pdf.getColumn "Year" = df.getColumn "Year" := by
  refine ⟨?_, getColumn_year_select df _ pdf hy hp⟩
  simp only [render, hp] at hc
  split at hc
  · rename_i lo hi hlo hhi
    rw [Option.some.injEq] at hc
    subst hc
    simp [hlo, hhi]
  · exact Option.noConfusion hc

/-- C7 witness: on a concrete sheet the x-axis range is exactly the min
and max of the plotted table's Year column, itself the sheet's Year
column. -/
theorem c7_xaxis_range_clamped_witness :
    "Year" ∈ sampleSheet.columns ∧
      render "Bromley" "Percent change" sampleSheet = some samplePercentChart ∧
      sampleSheet.selectColumns
          ("Year" :: plot_columns "Percent change" sampleSheet) = some samplePlotDf ∧
      (samplePercentChart.xRange =
          (cellMin (samplePlotDf.getColumn "Year"), cellMax (samplePlotDf.getColumn "Year")) ∧
        samplePlotDf.getColumn "Year" = sampleSheet.getColumn "Year") :=
  ⟨by decide, rfl, rfl,
   c7_xaxis_range_clamped "Bromley" "Percent change" sampleSheet samplePercentChart
     samplePlotDf (by decide) rfl rfl⟩

/-- A non-empty sheet the loader accepts whose "Year" column mixes an
integer and a string. -/
def mixedYearSheet : Sheet :=
  { columns := ["Year"], rows := [[.int 2025], [.str "twenty thirty"]] }

/-- C8 counterexample: the loader accepts `mixedYearSheet` (it is
non-empty with a "Year" column), its Counts plot-column list is empty,
yet the pipeline produces no chart: `plot_df['Year'].min()` at line 140
raises TypeError on the mixed int/str column, so the script crashes
instead of showing the empty chart the claim asserts. -/
theorem c8_empty_plot_crash_counterexample :
    sheetValid mixedYearSheet = true ∧
      plot_columns "Counts" mixedYearSheet = [] ∧
      render "Bromley" "Counts" mixedYearSheet = none :=
  ⟨by decide, by decide, rfl⟩

/-- C8 (amended): in both view modes the plot columns are a subset of the
sheet's columns; and when the sheet has a "Year" column on which pandas
`min` and `max` do not raise (as for any uniformly-typed Year column),
rendering produces a chart whose series are exactly the plot columns — in
particular an empty plot-column list yields a chart with zero series
rather than an error. -/
theorem c8_plot_columns_subset_and_empty_chart (area view_type : String) (df : Sheet)
    (hy : "Year" ∈ df.columns)
    (hmin : cellMin (df.getColumn "Year") ≠ none)
    (hmax : cellMax (df.getColumn "Year") ≠ none) :
    (∀ c ∈ plot_columns view_type df, c ∈ df.columns) ∧
      ∃ chart, render area view_type df = some chart ∧
        chart.series = plot_columns view_type df := by
  refine ⟨plot_columns_subset view_type df, ?_⟩
  have hall : ∀ c ∈ ("Year" :: plot_columns view_type df), c ∈ df.columns := by
    intro c hc
    rcases List.mem_cons.mp hc with rfl | hc2
    · exact hy
    · exact plot_columns_subset view_type df c hc2
  obtain ⟨pdf, hsel⟩ : ∃ pdf, df.selectColumns ("Year" :: plot_columns view_type df) = some pdf :=
    ⟨_, selectColumns_some_of_subset df _ hall⟩
  have hyear : pdf.getColumn "Year" = df.getColumn "Year" :=
    getColumn_year_select df _ pdf hy hsel
  obtain ⟨lo, hlo⟩ := Option.ne_none_iff_exists.mp hmin
  obtain ⟨hi, hhi⟩ := Option.ne_none_iff_exists.mp hmax
  refine ⟨{ xField := "Year",
            series := plot_columns view_type df,
            title := area ++ title_suffix view_type,
            lineWidth := 3,
            xRange := (some lo, some hi),
            hasZeroLine := zero_line view_type,
            colors := color_map }, ?_, rfl⟩
  simp only [render, hsel]
  rw [hyear, ← hlo, ← hhi]

/-- C8 witness: a sheet with only an integer Year column has an empty
plot-column list in Counts mode, its Year min/max succeed, and rendering
still yields a chart with no series. -/
theorem c8_plot_columns_subset_and_empty_chart_witness :
    "Year" ∈ sampleYearOnly.columns ∧
      cellMin (sampleYearOnly.getColumn "Year") ≠ none ∧
      cellMax (sampleYearOnly.getColumn "Year") ≠ none ∧
      plot_columns "Counts" sampleYearOnly = [] ∧
      ((∀ c ∈ plot_columns "Counts" sampleYearOnly, c ∈ sampleYearOnly.columns) ∧
        ∃ chart, render "Bromley" "Counts" sampleYearOnly = some chart ∧
          chart.series = plot_columns "Counts" sampleYearOnly) :=
  ⟨by decide, by decide, by decide, by decide,
   c8_plot_columns_subset_and_empty_chart "Bromley" "Counts" sampleYearOnly
     (by decide) (by decide) (by decide)⟩

/-- C9: when the file loads but no sheet is non-empty with a "Year"
column, the script shows the empty-dataset error and stops — no chart is
rendered (lines 75-77). -/
theorem c9_empty_dataset_halts (wb : List (String × Sheet)) (areaChoice : Option String)
    (view_type : String) (h : ∀ e ∈ wb, sheetValid e.2 = false) :
    runApp (.workbook wb) areaChoice view_type = .emptyData := by
  have hf : wb.filter (fun s => sheetValid s.2) = [] := by
    rw [List.filter_eq_nil_iff]
    intro e he
    simp [h e he]
  simp [runApp, load_data, hf]

/-- C9 witness: a workbook whose only sheet lacks the "Year" column halts
with the empty-dataset error. -/
theorem c9_empty_dataset_halts_witness :
    (∀ e ∈ [("Only", sheetNoYear)], sheetValid e.2 = false) ∧
      runApp (.workbook [("Only", sheetNoYear)]) none "Percent change" = .emptyData :=
  ⟨by decide, c9_empty_dataset_halts [("Only", sheetNoYear)] none "Percent change" (by decide)⟩

/-- C10: the loader's filter looks only at the sheet's column names and at
whether it has rows — never at the Year column's values: validity is
unchanged under any replacement of the rows that preserves emptiness, and
a non-empty sheet with a "Year" column is accepted whatever cells it
holds, strings included. -/
theorem c10_loader_ignores_year_values (cols : List String)
    (rows rows2 : List (List Cell)) (h : rows.isEmpty = rows2.isEmpty) :
    sheetValid { columns := cols, rows := rows } =
        sheetValid { columns := cols, rows := rows2 } ∧
      ∀ (name : String) (wb : List (String × Sheet)) (df : Sheet),
        (name, df) ∈ wb → df.rows ≠ [] → "Year" ∈ df.columns →
        ∃ out, load_data (.workbook wb) = .ok out ∧ (name, df) ∈ out := by
  constructor
  · simp [sheetValid, Sheet.empty, h]
  · intro name wb df hmem hne hy
    refine ⟨_, rfl, List.mem_filter.mpr ⟨hmem, ?_⟩⟩
    have hcne : df.columns ≠ [] := List.ne_nil_of_mem hy
    simp [sheetValid, Sheet.empty, List.isEmpty_iff, hne, hcne, hy]

/-- C10 witness: a sheet whose "Year" cells are strings is as valid as an
integer one, and is accepted into the dataset. -/
theorem c10_loader_ignores_year_values_witness :
    (Sheet.rows sheetStrYears).isEmpty = ([[Cell.int 2025, Cell.int 10]] : List (List Cell)).isEmpty ∧
      ((sheetValid { columns := ["Year", "0-24"], rows := sheetStrYears.rows } =
          sheetValid { columns := ["Year", "0-24"], rows := [[Cell.int 2025, Cell.int 10]] }) ∧
        ∃ out, load_data (.workbook [("A", sheetStrYears)]) = .ok out ∧
          ("A", sheetStrYears) ∈ out) :=
  have h := c10_loader_ignores_year_values ["Year", "0-24"] sheetStrYears.rows
    [[Cell.int 2025, Cell.int 10]] (by decide)
  ⟨by decide, h.1, h.2 "A" [("A", sheetStrYears)] sheetStrYears (by decide) (by decide) (by decide)⟩

end SEICB
